import Mathlib

/-!
Shallow embedding of the GQCNN ROS grasp-planner front end
(`gqcnn/ros_nodes/grasp_planner_node.py`): image ingestion, mask
composition, policy invocation and response marshalling, together with
theorems settling the specification claims about that pipeline.

External collaborators (the transport codec, the inpainting routine, the
grasp-selection policy and the notification channel) are modelled as
parameters: a request carries the *outcome* of decoding each transport
buffer, inpainting is an arbitrary function argument, the policy is a
function from scene states to a result, and the notification channel's
delivery outcome is a boolean the pipeline receives but (like the Python
code, for which `Publisher.publish` is fire-and-forget) cannot observe.
-/

namespace GraspPlannerNode

/-- An in-memory image (the shared shape of `ColorImage`, `DepthImage` and
`BinaryImage` from the `perception` package): a pixel grid with paired
height/width and a coordinate-frame tag.  Pixel payloads are abstracted to
`Nat` (only binary-mask pixel values, 0 or 255, are ever inspected by the
pipeline under verification). -/
structure Img where
  height : Nat
  width : Nat
  data : Nat → Nat → Nat
  frame : String

/-- Raw `sensor_msgs/CameraInfo` fields used by `read_images`:
`header.frame_id`, the flattened intrinsics matrix `K`, and the
resolution. -/
structure CameraInfo where
  frame_id : String
  K : Nat → ℚ
  height : Nat
  width : Nat

/-- `perception.CameraIntrinsics` as constructed at line 90 of the source:
`CameraIntrinsics(frame_id, K[0], K[4], K[2], K[5], K[1], height, width)`. -/
structure CameraIntrinsics where
  frame : String
  fx : ℚ
  fy : ℚ
  cx : ℚ
  cy : ℚ
  skew : ℚ
  height : Nat
  width : Nat

/-- Line 90: wrap the raw camera info into a `CameraIntrinsics`. -/
def mkCameraIntrinsics (info : CameraInfo) : CameraIntrinsics :=
  { frame := info.frame_id
    fx := info.K 0
    fy := info.K 4
    cx := info.K 2
    cy := info.K 5
    skew := info.K 1
    height := info.height
    width := info.width }

/-- Errors that abort a single request.  `rospy.ServiceException`s raised
deliberately by the handler carry the data their message interpolates;
`unboundLocal` and `nameError` model Python `UnboundLocalError` /
`NameError` exceptions escaping the handler (these also abort the request,
reported to the caller as a generic failure, but are not the handler's own
service exceptions). -/
inductive PipelineError
  /-- A decode slip: the `except CvBridgeError` clause only logs, so the
  subsequent use of the never-assigned local raises `UnboundLocalError`. -/
  | unboundLocal (localName : String)
  /-- Lines 100-104 / 149-153: shapes of two co-required images disagree;
  carries (first height, first width, second height, second width) exactly
  as the message interpolates them. -/
  | dimensionMismatch (h1 w1 h2 w2 : Nat)
  /-- Lines 106-109: image below the minimum analysis size; carries
  (required height, required width, actual height, actual width). -/
  | imageTooSmall (reqH reqW : ℚ) (actH actW : Nat)
  /-- Line 213 references the undefined name `rgbd_image`; Python raises
  `NameError` there. -/
  | nameError (missingName : String)
  /-- Lines 236-238: `NoValidGraspsException` caught and re-raised as a
  `ServiceException`. -/
  | noValidGrasp
  /-- Lines 266-268: the policy returned a grasp that is neither `Grasp2D`
  nor `SuctionPoint2D`. -/
  | unsupportedGraspType
  /-- Any other failure escaping the policy call, propagated as-is. -/
  | policyFailure (msg : String)
deriving DecidableEq

/-- The state `GraspPlanner.__init__` stores: configuration values read
from `cfg` plus the derived minimum dimensions `min_height`/`min_width`
(lines 66-72; `min_width = 2*pad + crop_width`,
`min_height = 2*pad + crop_height`, with `pad` given by `padOfConfig`
below — the padding arithmetic over the exact reals is settled
separately, in the claim about the pad formula). -/
structure GraspPlanner where
  min_height : ℚ
  min_width : ℚ
  inpaint_rescale_factor : ℚ

/-- Lines 67-70 of `GraspPlanner.__init__`: the padding actually computed,
`max(ceil(sqrt(2) * (crop_width / 2)), ceil(sqrt(2) * (crop_height / 2)))`. -/
noncomputable def padOfConfig (crop_width crop_height : ℝ) : ℤ :=
  max ⌈Real.sqrt 2 * (crop_width / 2)⌉ ⌈Real.sqrt 2 * (crop_height / 2)⌉

/-- Modelled from the spec: `pad = ceil(sqrt(2) * max(cropWidth, cropHeight) / 2)`,
the formula the specification states for the same padding. -/
noncomputable def padOfSpec (crop_width crop_height : ℝ) : ℤ :=
  ⌈Real.sqrt 2 * max crop_width crop_height / 2⌉

/-- `GraspPlanner.read_images` (lines 74-111).  The two arguments
`colorDecode`/`depthDecode` are the outcomes of the external
`cv_bridge.imgmsg_to_cv2` calls on the request's transport buffers.  The
Python `try` block attempts the color decode first, then the depth decode;
a `CvBridgeError` from either is caught and only logged (line 97), after
which line 100 reads the never-assigned local (`color_im` when the color
decode failed, else `depth_im`) and raises `UnboundLocalError`. -/
def read_images (planner : GraspPlanner) (colorDecode depthDecode : Except String Img)
    (info : CameraInfo) : Except PipelineError (Img × Img × CameraIntrinsics) :=
  let camera_intr := mkCameraIntrinsics info
  match colorDecode, depthDecode with
  | .error _, _ => .error (.unboundLocal "color_im")
  | .ok _, .error _ => .error (.unboundLocal "depth_im")
  | .ok c, .ok d =>
    let color_im : Img := { c with frame := camera_intr.frame }
    let depth_im : Img := { d with frame := camera_intr.frame }
    if color_im.height ≠ depth_im.height ∨ color_im.width ≠ depth_im.width then
      .error (.dimensionMismatch color_im.height color_im.width depth_im.height depth_im.width)
    else if (color_im.height : ℚ) < planner.min_height ∨ (color_im.width : ℚ) < planner.min_width then
      .error (.imageTooSmall planner.min_height planner.min_width color_im.height color_im.width)
    else
      .ok (color_im, depth_im, camera_intr)

/-- The bounding box carried by a `GQCNNGraspPlannerBoundingBox` request
(fields read at lines 197-200). -/
structure BoundingBox where
  minX : Int
  minY : Int
  maxX : Int
  maxY : Int

/-- The clipped box after lines 203-210: the minima are raised to 0 when
negative and the maxima lowered to the image width/height when exceeding
them (nothing else is adjusted). -/
structure ClippedBox where
  min_x : Int
  min_y : Int
  max_x : Int
  max_y : Int
deriving DecidableEq

/-- Lines 203-210: contain the box to the image bounds. -/
def clampBB (bb : BoundingBox) (w h : Nat) : ClippedBox :=
  { min_x := if bb.minX < 0 then 0 else bb.minX
    min_y := if bb.minY < 0 then 0 else bb.minY
    max_x := if bb.maxX > (w : Int) then (w : Int) else bb.maxX
    max_y := if bb.maxY > (h : Int) then (h : Int) else bb.maxY }

/-- Line 177: the default segmask `BinaryImage(255*np.ones(depth_im.shape),
frame=color_im.frame)` — every pixel included. -/
def fullMask (depth_im : Img) (frame : String) : Img :=
  { height := depth_im.height
    width := depth_im.width
    data := fun _ _ => 255
    frame := frame }

/-- `perception.RgbdImage.from_color_and_depth` (line 191): the fused
color+depth composite; its height/width are the (equal) constituents'. -/
structure RgbdImg where
  color : Img
  depth : Img

def RgbdImg.height (im : RgbdImg) : Nat := im.color.height

def RgbdImg.width (im : RgbdImg) : Nat := im.color.width

/-- `gqcnn.grasping.RgbdImageState` (lines 229-231): the immutable scene
bundle handed to the policy. -/
structure RgbdState where
  rgbd_im : RgbdImg
  camera_intr : CameraIntrinsics
  segmask : Img

/-- The scene-preparation phase of `GraspPlanner._plan_grasp`
(lines 169-231): inpaint color and depth, default the segmask to the
all-included mask when absent, fuse into an `RgbdImage`, then handle the
bounding box.  The bounding-box branch clips the box (lines 203-210) and
then, at line 213, evaluates `np.zeros([rgbd_image.height, rgbd_image.width])`
— but no name `rgbd_image` is defined anywhere in the module (the fused
image is bound as `rgbd_im`), so Python raises `NameError` there and the
mask is never rasterized. -/
def composeScene (inpaint : Img → ℚ → Img) (rescale_factor : ℚ) (color depth : Img)
    (camera_intr : CameraIntrinsics) (bounding_box : Option BoundingBox)
    (segmaskOpt : Option Img) : Except PipelineError RgbdState :=
  let color_im := inpaint color rescale_factor
  let depth_im := inpaint depth rescale_factor
  let segmask := segmaskOpt.getD (fullMask depth_im color_im.frame)
  let rgbd_im : RgbdImg := { color := color_im, depth := depth_im }
  match bounding_box with
  | some bb =>
    let _clipped := clampBB bb rgbd_im.width rgbd_im.height
    .error (.nameError "rgbd_image")
  | none => .ok { rgbd_im := rgbd_im, camera_intr := camera_intr, segmask := segmask }

/-- The variant of the 2-D grasp object the policy's action carries:
`Grasp2D` (parallel jaw), `SuctionPoint2D`, or anything else. -/
inductive GraspVariant
  | grasp2D
  | suctionPoint2D
  | unsupported
deriving DecidableEq

/-- An opaque `geometry_msgs/Pose` message (the value of
`grasp.grasp.pose().pose_msg`). -/
structure PoseMsg where
  val : Nat
deriving DecidableEq

/-- The 2-D grasp inside the policy's action: variant tag, image-space
center, orientation angle, approach depth, and the 3-D pose message its
`pose()` accessor yields. -/
structure Grasp2DLike where
  variant : GraspVariant
  centerX : ℚ
  centerY : ℚ
  angle : ℚ
  depth : ℚ
  poseMsg : PoseMsg

/-- An opaque thumbnail image; `rosmsg` is its wire encoding
(`grasp.image.rosmsg`, line 275). -/
structure Thumbnail where
  rosmsg : Nat
deriving DecidableEq

/-- The action returned by the grasping policy: quality value, the 2-D
grasp object, and the cropped thumbnail image. -/
structure GraspAction where
  q_value : ℚ
  grasp : Grasp2DLike
  image : Thumbnail

/-- What the policy call `grasping_policy(rgbd_image_state)` can do:
return an action, raise `NoValidGraspsException`, or raise something
else. -/
inductive PolicyFailure
  | noValidGrasps
  | other (msg : String)
deriving DecidableEq

/-- `GQCNNGrasp.PARALLEL_JAW`, the wire code for a parallel-jaw grasp
(constant of the `gqcnn/GQCNNGrasp` message definition, outside this
file). -/
def PARALLEL_JAW : Nat := 0

/-- `GQCNNGrasp.SUCTION`, the wire code for a suction grasp (constant of
the `gqcnn/GQCNNGrasp` message definition, outside this file). -/
def SUCTION : Nat := 1

/-- The `GQCNNGrasp` response message populated at lines 259-275. -/
structure GQCNNGrasp where
  q_value : ℚ
  pose : PoseMsg
  grasp_type : Nat
  center_px : ℚ × ℚ
  angle : ℚ
  depth : ℚ
  thumbnail : Nat
deriving DecidableEq

/-- The `geometry_msgs/PoseStamped` published at lines 277-284: the pose
alone, stamped with the current time and the camera frame. -/
structure PoseStamped where
  pose : PoseMsg
  stamp : Nat
  frame_id : String
deriving DecidableEq

/-- What can escape `execute_policy`: an exception propagating out of the
policy call at line 256, or the `ServiceException` raised at line 268 for
an unsupported grasp variant. -/
inductive ExecError
  | policyRaised (e : PolicyFailure)
  | unsupportedGraspType
deriving DecidableEq

/-- Lines 262-268: the type discriminant selected by
`isinstance(grasp.grasp, Grasp2D)` / `isinstance(grasp.grasp, SuctionPoint2D)`;
`none` means the unsupported-else branch. -/
def graspTypeOf : GraspVariant → Option Nat
  | .grasp2D => some PARALLEL_JAW
  | .suctionPoint2D => some SUCTION
  | .unsupported => none

/-- `GraspPlanner.execute_policy` (lines 240-289): invoke the policy once
on the scene state, marshal the returned action into a `GQCNNGrasp`, and
publish the pose-only `PoseStamped`.  On success the result carries both
the response returned to the caller and the message handed to the
publisher.  `publishDelivered` is the notification channel's delivery
outcome; `rospy.Publisher.publish` is fire-and-forget, so the code
receives no signal from it and the parameter is (necessarily) never
consulted. -/
def execute_policy (grasping_policy : RgbdState → Except PolicyFailure GraspAction)
    (rgbd_image_state : RgbdState) (publishDelivered : Bool) (pose_frame : String)
    (now : Nat) : Except ExecError (GQCNNGrasp × PoseStamped) × Nat :=
  match grasping_policy rgbd_image_state with
  | .error e => (.error (.policyRaised e), 1)
  | .ok grasp =>
    let q_value := grasp.q_value
    let pose := grasp.grasp.poseMsg
    match graspTypeOf grasp.grasp.variant with
    | none => (.error .unsupportedGraspType, 1)
    | some grasp_type =>
      let gqcnn_grasp : GQCNNGrasp :=
        { q_value := q_value
          pose := pose
          grasp_type := grasp_type
          center_px := (grasp.grasp.centerX, grasp.grasp.centerY)
          angle := grasp.grasp.angle
          depth := grasp.grasp.depth
          thumbnail := grasp.image.rosmsg }
      let pose_stamped : PoseStamped :=
        { pose := grasp.grasp.poseMsg, stamp := now, frame_id := pose_frame }
      (.ok (gqcnn_grasp, pose_stamped), 1)

/-- `GraspPlanner._plan_grasp` (lines 157-238): prepare the scene, then
execute the policy inside the `try` of lines 234-238, which catches only
`NoValidGraspsException` and re-raises it as a `ServiceException`; any
other failure propagates as-is.  The second component counts how many
times the grasping policy was invoked while handling the request. -/
def plan_grasp_core (inpaint : Img → ℚ → Img) (rescale_factor : ℚ)
    (grasping_policy : RgbdState → Except PolicyFailure GraspAction)
    (publishDelivered : Bool) (now : Nat) (color_im depth_im : Img)
    (camera_intr : CameraIntrinsics) (bounding_box : Option BoundingBox)
    (segmaskOpt : Option Img) :
    Except PipelineError (GQCNNGrasp × PoseStamped) × Nat :=
  match composeScene inpaint rescale_factor color_im depth_im camera_intr
      bounding_box segmaskOpt with
  | .error e => (.error e, 0)
  | .ok rgbd_state =>
    match execute_policy grasping_policy rgbd_state publishDelivered
        camera_intr.frame now with
    | (.error (.policyRaised .noValidGrasps), n) => (.error .noValidGrasp, n)
    | (.error (.policyRaised (.other m)), n) => (.error (.policyFailure m), n)
    | (.error .unsupportedGraspType, n) => (.error .unsupportedGraspType, n)
    | (.ok r, n) => (.ok r, n)

/-- A plain `GQCNNGraspPlanner` request: the decode outcomes of the color
and depth transport buffers, plus the raw camera info. -/
structure PlainRequest where
  color_image : Except String Img
  depth_image : Except String Img
  camera_info : CameraInfo

/-- A `GQCNNGraspPlannerBoundingBox` request. -/
structure BBRequest where
  color_image : Except String Img
  depth_image : Except String Img
  camera_info : CameraInfo
  bounding_box : BoundingBox

/-- A `GQCNNGraspPlannerSegmask` request; `segmask` is the decode outcome
of the segmask transport buffer. -/
structure SegmaskRequest where
  color_image : Except String Img
  depth_image : Except String Img
  camera_info : CameraInfo
  segmask : Except String Img

/-- `GraspPlanner.plan_grasp` (lines 113-122). -/
def plan_grasp (planner : GraspPlanner) (inpaint : Img → ℚ → Img)
    (grasping_policy : RgbdState → Except PolicyFailure GraspAction)
    (publishDelivered : Bool) (now : Nat) (req : PlainRequest) :
    Except PipelineError (GQCNNGrasp × PoseStamped) × Nat :=
  match read_images planner req.color_image req.depth_image req.camera_info with
  | .error e => (.error e, 0)
  | .ok (color_im, depth_im, camera_intr) =>
    plan_grasp_core inpaint planner.inpaint_rescale_factor grasping_policy
      publishDelivered now color_im depth_im camera_intr none none

/-- `GraspPlanner.plan_grasp_bb` (lines 124-133). -/
def plan_grasp_bb (planner : GraspPlanner) (inpaint : Img → ℚ → Img)
    (grasping_policy : RgbdState → Except PolicyFailure GraspAction)
    (publishDelivered : Bool) (now : Nat) (req : BBRequest) :
    Except PipelineError (GQCNNGrasp × PoseStamped) × Nat :=
  match read_images planner req.color_image req.depth_image req.camera_info with
  | .error e => (.error e, 0)
  | .ok (color_im, depth_im, camera_intr) =>
    plan_grasp_core inpaint planner.inpaint_rescale_factor grasping_policy
      publishDelivered now color_im depth_im camera_intr (some req.bounding_box) none

/-- `GraspPlanner.plan_grasp_segmask` (lines 135-155).  A segmask decode
failure is caught and only logged (lines 147-148), so line 149 reads the
never-assigned local `segmask` and raises `UnboundLocalError`; a decoded
segmask must match the color image's shape exactly. -/
def plan_grasp_segmask (planner : GraspPlanner) (inpaint : Img → ℚ → Img)
    (grasping_policy : RgbdState → Except PolicyFailure GraspAction)
    (publishDelivered : Bool) (now : Nat) (req : SegmaskRequest) :
    Except PipelineError (GQCNNGrasp × PoseStamped) × Nat :=
  match read_images planner req.color_image req.depth_image req.camera_info with
  | .error e => (.error e, 0)
  | .ok (color_im, depth_im, camera_intr) =>
    match req.segmask with
    | .error _ => (.error (.unboundLocal "segmask"), 0)
    | .ok sm =>
      let segmask : Img := { sm with frame := camera_intr.frame }
      if color_im.height ≠ segmask.height ∨ color_im.width ≠ segmask.width then
        (.error (.dimensionMismatch color_im.height color_im.width
          segmask.height segmask.width), 0)
      else
        plan_grasp_core inpaint planner.inpaint_rescale_factor grasping_policy
          publishDelivered now color_im depth_im camera_intr none (some segmask)

/-- Lines 71-72 of `__init__`: `min_width = 2 * pad + crop_width`, over
the exact reals. -/
noncomputable def min_width_ofConfig (crop_width crop_height : ℝ) : ℝ :=
  2 * (padOfConfig crop_width crop_height : ℝ) + crop_width

/-- Lines 71-72 of `__init__`: `min_height = 2 * pad + crop_height`, over
the exact reals. -/
noncomputable def min_height_ofConfig (crop_width crop_height : ℝ) : ℝ :=
  2 * (padOfConfig crop_width crop_height : ℝ) + crop_height

/-! ## Helper lemmas -/

/-- Unfolding of `read_images` when both decodes succeed. -/
theorem read_images_ok_ok (planner : GraspPlanner) (c d : Img) (info : CameraInfo) :
    read_images planner (.ok c) (.ok d) info =
      if c.height ≠ d.height ∨ c.width ≠ d.width then
        .error (.dimensionMismatch c.height c.width d.height d.width)
      else if (c.height : ℚ) < planner.min_height ∨ (c.width : ℚ) < planner.min_width then
        .error (.imageTooSmall planner.min_height planner.min_width c.height c.width)
      else
        .ok ({ c with frame := (mkCameraIntrinsics info).frame },
          { d with frame := (mkCameraIntrinsics info).frame }, mkCameraIntrinsics info) := rfl

/-- The policy is invoked exactly once inside any `execute_policy` call. -/
theorem execute_policy_count (grasping_policy : RgbdState → Except PolicyFailure GraspAction)
    (st : RgbdState) (pub : Bool) (frame : String) (now : Nat) :
    (execute_policy grasping_policy st pub frame now).2 = 1 := by
  unfold execute_policy
  rcases hps : grasping_policy st with e | g
  · rfl
  · rcases htg : graspTypeOf g.grasp.variant with _ | t <;> simp [htg]

/-! ## Theorems settling the claims -/

/-- C1: the claim says a supplied bounding box is clamped, rasterized into
a binary mask over the fused image, and intersected with any segmask,
never erroring.  The code instead evaluates the undefined name
`rgbd_image` at the rasterization step, so every request with a bounding
box aborts with a `NameError` there and no mask is ever composed. -/
theorem bb_request_mask_composition_raises_nameError
    (inpaint : Img → ℚ → Img) (rescale_factor : ℚ) (color depth : Img)
    (camera_intr : CameraIntrinsics) (bb : BoundingBox) (segmaskOpt : Option Img) :
    composeScene inpaint rescale_factor color depth camera_intr (some bb) segmaskOpt =
      .error (.nameError "rgbd_image") := rfl

/-- C5: with neither a bounding box nor a segmask supplied, the composed
region of interest handed to the policy is the all-included mask with the
depth image's height and width (the inpainting collaborator preserves
image dimensions). -/
theorem no_constraints_yields_full_mask
    (inpaint : Img → ℚ → Img) (rescale_factor : ℚ) (color depth : Img)
    (camera_intr : CameraIntrinsics)
    (hH : ∀ im r, (inpaint im r).height = im.height)
    (hW : ∀ im r, (inpaint im r).width = im.width) :
    ∃ st, composeScene inpaint rescale_factor color depth camera_intr none none = .ok st ∧
      st.segmask.height = depth.height ∧ st.segmask.width = depth.width ∧
      ∀ y x, st.segmask.data y x = 255 := by
  refine ⟨_, rfl, ?_, ?_, fun _ _ => rfl⟩
  · exact hH depth rescale_factor
  · exact hW depth rescale_factor

/-- C6: the claim says a bounding box whose clipped extent is empty yields
an all-excluded mask without error at the composition stage.  The code
never reaches the rasterization: it aborts with the `rgbd_image`
`NameError` for these boxes too (as for every bounding box). -/
theorem empty_clipped_bb_raises_nameError
    (inpaint : Img → ℚ → Img) (rescale_factor : ℚ) (color depth : Img)
    (camera_intr : CameraIntrinsics) (bb : BoundingBox) (segmaskOpt : Option Img)
    (hEmpty :
      (clampBB bb (inpaint color rescale_factor).width (inpaint color rescale_factor).height).max_x ≤
        (clampBB bb (inpaint color rescale_factor).width (inpaint color rescale_factor).height).min_x ∨
      (clampBB bb (inpaint color rescale_factor).width (inpaint color rescale_factor).height).max_y ≤
        (clampBB bb (inpaint color rescale_factor).width (inpaint color rescale_factor).height).min_y) :
    composeScene inpaint rescale_factor color depth camera_intr (some bb) segmaskOpt =
      .error (.nameError "rgbd_image") := rfl

/-- Witness for C6 at a concrete fully-out-of-frame box on a 20×20 image. -/
theorem empty_clipped_bb_raises_nameError_witness :
    ((clampBB ⟨-10, -10, -1, -1⟩ 20 20).max_x ≤ (clampBB ⟨-10, -10, -1, -1⟩ 20 20).min_x ∨
      (clampBB ⟨-10, -10, -1, -1⟩ 20 20).max_y ≤ (clampBB ⟨-10, -10, -1, -1⟩ 20 20).min_y) ∧
    composeScene (fun im _ => im) 1 ⟨20, 20, fun _ _ => 0, "camera"⟩
      ⟨20, 20, fun _ _ => 0, "camera"⟩ ⟨"camera", 1, 1, 1, 1, 0, 20, 20⟩
      (some ⟨-10, -10, -1, -1⟩) none = .error (.nameError "rgbd_image") :=
  ⟨by decide,
    empty_clipped_bb_raises_nameError (fun im _ => im) 1 ⟨20, 20, fun _ _ => 0, "camera"⟩
      ⟨20, 20, fun _ _ => 0, "camera"⟩ ⟨"camera", 1, 1, 1, 1, 0, 20, 20⟩
      ⟨-10, -10, -1, -1⟩ none (by decide)⟩

/-- Witness for C5 with identity inpainting on a concrete 10×10 scene. -/
theorem no_constraints_yields_full_mask_witness :
    ∃ st, composeScene (fun im _ => im) 1 ⟨10, 10, fun _ _ => 0, "camera"⟩
        ⟨10, 10, fun _ _ => 0, "camera"⟩ ⟨"camera", 1, 1, 1, 1, 0, 10, 10⟩ none none = .ok st ∧
      st.segmask.height = 10 ∧ st.segmask.width = 10 ∧
      ∀ y x, st.segmask.data y x = 255 :=
  no_constraints_yields_full_mask (fun im _ => im) 1 ⟨10, 10, fun _ _ => 0, "camera"⟩
    ⟨10, 10, fun _ _ => 0, "camera"⟩ ⟨"camera", 1, 1, 1, 1, 0, 10, 10⟩
    (fun _ _ => rfl) (fun _ _ => rfl)

/-- C7: for every grasp action the policy returns, the marshaller sets
the parallel-jaw code for a `Grasp2D` and the suction code for a
`SuctionPoint2D`, copying quality, pose, image-space center, angle,
depth and thumbnail reference verbatim into the response; any other
variant aborts the request with the unsupported-grasp-type error and no
(partial) response is returned. -/
theorem marshaller_variant_dispatch
    (grasping_policy : RgbdState → Except PolicyFailure GraspAction)
    (st : RgbdState) (pub : Bool) (frame : String) (now : Nat) (grasp : GraspAction)
    (hp : grasping_policy st = .ok grasp) :
    (grasp.grasp.variant = .grasp2D →
      execute_policy grasping_policy st pub frame now =
        (.ok ({ q_value := grasp.q_value, pose := grasp.grasp.poseMsg,
                grasp_type := PARALLEL_JAW,
                center_px := (grasp.grasp.centerX, grasp.grasp.centerY),
                angle := grasp.grasp.angle, depth := grasp.grasp.depth,
                thumbnail := grasp.image.rosmsg },
              { pose := grasp.grasp.poseMsg, stamp := now, frame_id := frame }), 1)) ∧
    (grasp.grasp.variant = .suctionPoint2D →
      execute_policy grasping_policy st pub frame now =
        (.ok ({ q_value := grasp.q_value, pose := grasp.grasp.poseMsg,
                grasp_type := SUCTION,
                center_px := (grasp.grasp.centerX, grasp.grasp.centerY),
                angle := grasp.grasp.angle, depth := grasp.grasp.depth,
                thumbnail := grasp.image.rosmsg },
              { pose := grasp.grasp.poseMsg, stamp := now, frame_id := frame }), 1)) ∧
    (grasp.grasp.variant = .unsupported →
      execute_policy grasping_policy st pub frame now =
        (.error .unsupportedGraspType, 1)) := by
  refine ⟨fun hv => ?_, fun hv => ?_, fun hv => ?_⟩ <;>
    simp [execute_policy, hp, graspTypeOf, hv]

/-- Witness for C7: the spec's sample parallel-jaw candidate with center
(50, 60), angle 0.3, depth 0.4, quality 0.82 marshals to a response with
those fields verbatim and the parallel-jaw code. -/
theorem marshaller_variant_dispatch_witness :
    execute_policy
      (fun _ => .ok ⟨0.82, ⟨.grasp2D, 50, 60, 0.3, 0.4, ⟨7⟩⟩, ⟨3⟩⟩)
      ⟨⟨⟨5, 5, fun _ _ => 0, "camera"⟩, ⟨5, 5, fun _ _ => 0, "camera"⟩⟩,
        ⟨"camera", 1, 1, 1, 1, 0, 5, 5⟩, ⟨5, 5, fun _ _ => 255, "camera"⟩⟩
      true "camera" 42 =
      (.ok ({ q_value := 0.82, pose := ⟨7⟩, grasp_type := PARALLEL_JAW,
              center_px := (50, 60), angle := 0.3, depth := 0.4, thumbnail := 3 },
            { pose := ⟨7⟩, stamp := 42, frame_id := "camera" }), 1) :=
  (marshaller_variant_dispatch
    (fun _ => .ok ⟨0.82, ⟨.grasp2D, 50, 60, 0.3, 0.4, ⟨7⟩⟩, ⟨3⟩⟩)
    ⟨⟨⟨5, 5, fun _ _ => 0, "camera"⟩, ⟨5, 5, fun _ _ => 0, "camera"⟩⟩,
      ⟨"camera", 1, 1, 1, 1, 0, 5, 5⟩, ⟨5, 5, fun _ _ => 255, "camera"⟩⟩
    true "camera" 42 ⟨0.82, ⟨.grasp2D, 50, 60, 0.3, 0.4, ⟨7⟩⟩, ⟨3⟩⟩ rfl).1 rfl

/-- C9: the request's outcome never depends on the notification channel's
delivery outcome — the publish is fire-and-forget, so for a marshallable
candidate the response is returned to the caller whether or not the
publish step succeeds. -/
theorem publish_outcome_never_fails_request
    (grasping_policy : RgbdState → Except PolicyFailure GraspAction)
    (st : RgbdState) (frame : String) (now : Nat) (grasp : GraspAction)
    (hp : grasping_policy st = .ok grasp)
    (hv : grasp.grasp.variant ≠ .unsupported) :
    ∀ publishDelivered : Bool,
      execute_policy grasping_policy st publishDelivered frame now =
        execute_policy grasping_policy st true frame now ∧
      ∃ r, (execute_policy grasping_policy st publishDelivered frame now).1 = .ok r := by
  intro pub
  refine ⟨rfl, ?_⟩
  cases hvv : grasp.grasp.variant with
  | grasp2D =>
    refine ⟨(⟨grasp.q_value, grasp.grasp.poseMsg, PARALLEL_JAW,
      (grasp.grasp.centerX, grasp.grasp.centerY), grasp.grasp.angle,
      grasp.grasp.depth, grasp.image.rosmsg⟩,
      ⟨grasp.grasp.poseMsg, now, frame⟩), ?_⟩
    simp [execute_policy, hp, graspTypeOf, hvv]
  | suctionPoint2D =>
    refine ⟨(⟨grasp.q_value, grasp.grasp.poseMsg, SUCTION,
      (grasp.grasp.centerX, grasp.grasp.centerY), grasp.grasp.angle,
      grasp.grasp.depth, grasp.image.rosmsg⟩,
      ⟨grasp.grasp.poseMsg, now, frame⟩), ?_⟩
    simp [execute_policy, hp, graspTypeOf, hvv]
  | unsupported => exact absurd hvv hv

/-- Witness for C9 with the publish outcome set to failure. -/
theorem publish_outcome_never_fails_request_witness :
    execute_policy (fun _ => .ok ⟨0.5, ⟨.suctionPoint2D, 1, 2, 0, 0.3, ⟨9⟩⟩, ⟨4⟩⟩)
        ⟨⟨⟨5, 5, fun _ _ => 0, "camera"⟩, ⟨5, 5, fun _ _ => 0, "camera"⟩⟩,
          ⟨"camera", 1, 1, 1, 1, 0, 5, 5⟩, ⟨5, 5, fun _ _ => 255, "camera"⟩⟩
        false "camera" 0 =
      execute_policy (fun _ => .ok ⟨0.5, ⟨.suctionPoint2D, 1, 2, 0, 0.3, ⟨9⟩⟩, ⟨4⟩⟩)
        ⟨⟨⟨5, 5, fun _ _ => 0, "camera"⟩, ⟨5, 5, fun _ _ => 0, "camera"⟩⟩,
          ⟨"camera", 1, 1, 1, 1, 0, 5, 5⟩, ⟨5, 5, fun _ _ => 255, "camera"⟩⟩
        true "camera" 0 ∧
    ∃ r, (execute_policy (fun _ => .ok ⟨0.5, ⟨.suctionPoint2D, 1, 2, 0, 0.3, ⟨9⟩⟩, ⟨4⟩⟩)
        ⟨⟨⟨5, 5, fun _ _ => 0, "camera"⟩, ⟨5, 5, fun _ _ => 0, "camera"⟩⟩,
          ⟨"camera", 1, 1, 1, 1, 0, 5, 5⟩, ⟨5, 5, fun _ _ => 255, "camera"⟩⟩
        false "camera" 0).1 = .ok r :=
  publish_outcome_never_fails_request
    (fun _ => .ok ⟨0.5, ⟨.suctionPoint2D, 1, 2, 0, 0.3, ⟨9⟩⟩, ⟨4⟩⟩)
    ⟨⟨⟨5, 5, fun _ _ => 0, "camera"⟩, ⟨5, 5, fun _ _ => 0, "camera"⟩⟩,
      ⟨"camera", 1, 1, 1, 1, 0, 5, 5⟩, ⟨5, 5, fun _ _ => 255, "camera"⟩⟩
    "camera" 0 ⟨0.5, ⟨.suctionPoint2D, 1, 2, 0, 0.3, ⟨9⟩⟩, ⟨4⟩⟩ rfl (by decide) false

/-- C10: for a parallel-jaw or suction candidate the pose published on the
side channel and the pose field of the returned response are both read
from the same candidate's pose, hence identical. -/
theorem published_pose_equals_response_pose
    (grasping_policy : RgbdState → Except PolicyFailure GraspAction)
    (st : RgbdState) (pub : Bool) (frame : String) (now : Nat) (grasp : GraspAction)
    (hp : grasping_policy st = .ok grasp)
    (hv : grasp.grasp.variant = .grasp2D ∨ grasp.grasp.variant = .suctionPoint2D) :
    ∃ resp ps, execute_policy grasping_policy st pub frame now = (.ok (resp, ps), 1) ∧
      ps.pose = resp.pose := by
  rcases hv with hv | hv
  · refine ⟨⟨grasp.q_value, grasp.grasp.poseMsg, PARALLEL_JAW,
      (grasp.grasp.centerX, grasp.grasp.centerY), grasp.grasp.angle,
      grasp.grasp.depth, grasp.image.rosmsg⟩,
      ⟨grasp.grasp.poseMsg, now, frame⟩, ?_, rfl⟩
    simp [execute_policy, hp, graspTypeOf, hv]
  · refine ⟨⟨grasp.q_value, grasp.grasp.poseMsg, SUCTION,
      (grasp.grasp.centerX, grasp.grasp.centerY), grasp.grasp.angle,
      grasp.grasp.depth, grasp.image.rosmsg⟩,
      ⟨grasp.grasp.poseMsg, now, frame⟩, ?_, rfl⟩
    simp [execute_policy, hp, graspTypeOf, hv]

/-- Witness for C10 at a concrete parallel-jaw candidate. -/
theorem published_pose_equals_response_pose_witness :
    ∃ resp ps,
      execute_policy (fun _ => .ok ⟨0.9, ⟨.grasp2D, 8, 9, 0.1, 0.2, ⟨11⟩⟩, ⟨6⟩⟩)
        ⟨⟨⟨5, 5, fun _ _ => 0, "camera"⟩, ⟨5, 5, fun _ _ => 0, "camera"⟩⟩,
          ⟨"camera", 1, 1, 1, 1, 0, 5, 5⟩, ⟨5, 5, fun _ _ => 255, "camera"⟩⟩
        true "camera" 3 = (.ok (resp, ps), 1) ∧
      ps.pose = resp.pose :=
  published_pose_equals_response_pose
    (fun _ => .ok ⟨0.9, ⟨.grasp2D, 8, 9, 0.1, 0.2, ⟨11⟩⟩, ⟨6⟩⟩)
    ⟨⟨⟨5, 5, fun _ _ => 0, "camera"⟩, ⟨5, 5, fun _ _ => 0, "camera"⟩⟩,
      ⟨"camera", 1, 1, 1, 1, 0, 5, 5⟩, ⟨5, 5, fun _ _ => 255, "camera"⟩⟩
    true "camera" 3 ⟨0.9, ⟨.grasp2D, 8, 9, 0.1, 0.2, ⟨11⟩⟩, ⟨6⟩⟩ rfl (Or.inl rfl)

/-- C2: the claim says a transport-buffer decode failure aborts the
request with a decoding error reported to the caller.  The `except
CvBridgeError` clauses only log: the handler then falls through to line
100 (resp. line 149) and aborts with an `UnboundLocalError` on the
never-assigned image local instead — the caller receives that unrelated
error, not the decoding error. -/
theorem decode_failure_reported_as_unboundLocal :
    (∀ (planner : GraspPlanner) (e : String) (depthDecode : Except String Img)
        (info : CameraInfo),
      read_images planner (.error e) depthDecode info =
        .error (.unboundLocal "color_im")) ∧
    (∀ (planner : GraspPlanner) (c : Img) (e : String) (info : CameraInfo),
      read_images planner (.ok c) (.error e) info =
        .error (.unboundLocal "depth_im")) ∧
    (∀ (planner : GraspPlanner) (inpaint : Img → ℚ → Img)
        (grasping_policy : RgbdState → Except PolicyFailure GraspAction)
        (pub : Bool) (now : Nat) (req : SegmaskRequest)
        (c d : Img) (ci : CameraIntrinsics) (e : String),
      read_images planner req.color_image req.depth_image req.camera_info =
        .ok (c, d, ci) →
      req.segmask = .error e →
      plan_grasp_segmask planner inpaint grasping_policy pub now req =
        (.error (.unboundLocal "segmask"), 0)) := by
  refine ⟨fun _ _ _ _ => rfl, fun _ _ _ _ => rfl, ?_⟩
  intro planner inpaint grasping_policy pub now req c d ci e hread hseg
  simp [plan_grasp_segmask, hread, hseg]

/-- Witness for C2: a 10×10 request whose segmask buffer fails to decode
aborts with the `segmask` `UnboundLocalError`, not a decode error. -/
theorem decode_failure_reported_as_unboundLocal_witness :
    plan_grasp_segmask ⟨1, 1, 1⟩ (fun im _ => im) (fun _ => .error .noValidGrasps)
      true 0
      ⟨.ok ⟨10, 10, fun _ _ => 0, "camera"⟩, .ok ⟨10, 10, fun _ _ => 0, "camera"⟩,
        ⟨"camera", fun _ => 1, 10, 10⟩, .error "bad buffer"⟩ =
      (.error (.unboundLocal "segmask"), 0) :=
  decode_failure_reported_as_unboundLocal.2.2 ⟨1, 1, 1⟩ (fun im _ => im)
    (fun _ => .error .noValidGrasps) true 0
    ⟨.ok ⟨10, 10, fun _ _ => 0, "camera"⟩, .ok ⟨10, 10, fun _ _ => 0, "camera"⟩,
      ⟨"camera", fun _ => 1, 10, 10⟩, .error "bad buffer"⟩
    ⟨10, 10, fun _ _ => 0, "camera"⟩ ⟨10, 10, fun _ _ => 0, "camera"⟩
    ⟨"camera", 1, 1, 1, 1, 1, 10, 10⟩ "bad buffer" rfl rfl

/-- C3: whenever the decoded color and depth images disagree in height or
width, every entry point fails with the dimension-mismatch error carrying
both shapes, and the grasping policy is never invoked (the invocation
count of the returned pair is 0). -/
theorem dimension_mismatch_fails_before_policy
    (planner : GraspPlanner) (inpaint : Img → ℚ → Img)
    (grasping_policy : RgbdState → Except PolicyFailure GraspAction)
    (pub : Bool) (now : Nat) (info : CameraInfo) (c d : Img)
    (bb : BoundingBox) (sm : Except String Img)
    (h : c.height ≠ d.height ∨ c.width ≠ d.width) :
    read_images planner (.ok c) (.ok d) info =
      .error (.dimensionMismatch c.height c.width d.height d.width) ∧
    plan_grasp planner inpaint grasping_policy pub now ⟨.ok c, .ok d, info⟩ =
      (.error (.dimensionMismatch c.height c.width d.height d.width), 0) ∧
    plan_grasp_bb planner inpaint grasping_policy pub now ⟨.ok c, .ok d, info, bb⟩ =
      (.error (.dimensionMismatch c.height c.width d.height d.width), 0) ∧
    plan_grasp_segmask planner inpaint grasping_policy pub now ⟨.ok c, .ok d, info, sm⟩ =
      (.error (.dimensionMismatch c.height c.width d.height d.width), 0) := by
  have hr : read_images planner (.ok c) (.ok d) info =
      .error (.dimensionMismatch c.height c.width d.height d.width) := by
    rw [read_images_ok_ok, if_pos h]
  exact ⟨hr, by simp [plan_grasp, hr], by simp [plan_grasp_bb, hr],
    by simp [plan_grasp_segmask, hr]⟩

/-- Witness for C3: a 10×10 color image against a 10×9 depth image. -/
theorem dimension_mismatch_fails_before_policy_witness :
    plan_grasp ⟨1, 1, 1⟩ (fun im _ => im) (fun _ => .error .noValidGrasps) true 0
      ⟨.ok ⟨10, 10, fun _ _ => 0, "camera"⟩, .ok ⟨10, 9, fun _ _ => 0, "camera"⟩,
        ⟨"camera", fun _ => 1, 10, 10⟩⟩ =
      (.error (.dimensionMismatch 10 10 10 9), 0) :=
  (dimension_mismatch_fails_before_policy ⟨1, 1, 1⟩ (fun im _ => im)
    (fun _ => .error .noValidGrasps) true 0 ⟨"camera", fun _ => 1, 10, 10⟩
    ⟨10, 10, fun _ _ => 0, "camera"⟩ ⟨10, 9, fun _ _ => 0, "camera"⟩
    ⟨0, 0, 1, 1⟩ (.error "unused") (by decide)).2.1

/-- C4: a dimension-consistent image below the planner's minimum size
fails with the image-too-small error naming required and actual sizes, at
every entry point, with the policy never invoked; and the padding the
code computes, `max(ceil(sqrt(2)*cropWidth/2), ceil(sqrt(2)*cropHeight/2))`,
equals the spec's `ceil(sqrt(2)*max(cropWidth, cropHeight)/2)` (hence the
derived `min_width`/`min_height` also agree with the spec's). -/
theorem image_too_small_fails_before_policy_and_pad_formula :
    (∀ (planner : GraspPlanner) (inpaint : Img → ℚ → Img)
        (grasping_policy : RgbdState → Except PolicyFailure GraspAction)
        (pub : Bool) (now : Nat) (info : CameraInfo) (c d : Img)
        (bb : BoundingBox) (sm : Except String Img),
      c.height = d.height → c.width = d.width →
      ((c.height : ℚ) < planner.min_height ∨ (c.width : ℚ) < planner.min_width) →
      read_images planner (.ok c) (.ok d) info =
        .error (.imageTooSmall planner.min_height planner.min_width c.height c.width) ∧
      plan_grasp planner inpaint grasping_policy pub now ⟨.ok c, .ok d, info⟩ =
        (.error (.imageTooSmall planner.min_height planner.min_width c.height c.width), 0) ∧
      plan_grasp_bb planner inpaint grasping_policy pub now ⟨.ok c, .ok d, info, bb⟩ =
        (.error (.imageTooSmall planner.min_height planner.min_width c.height c.width), 0) ∧
      plan_grasp_segmask planner inpaint grasping_policy pub now ⟨.ok c, .ok d, info, sm⟩ =
        (.error (.imageTooSmall planner.min_height planner.min_width c.height c.width), 0)) ∧
    (∀ crop_width crop_height : ℝ,
      padOfConfig crop_width crop_height = padOfSpec crop_width crop_height) ∧
    (∀ crop_width crop_height : ℝ,
      min_width_ofConfig crop_width crop_height =
        2 * (padOfSpec crop_width crop_height : ℝ) + crop_width ∧
      min_height_ofConfig crop_width crop_height =
        2 * (padOfSpec crop_width crop_height : ℝ) + crop_height) := by
  have hpad : ∀ crop_width crop_height : ℝ,
      padOfConfig crop_width crop_height = padOfSpec crop_width crop_height := by
    intro cw ch
    unfold padOfConfig padOfSpec
    rcases le_total cw ch with h | h
    · have h2 : cw / 2 ≤ ch / 2 := by linarith
      have hf : Real.sqrt 2 * (cw / 2) ≤ Real.sqrt 2 * (ch / 2) :=
        mul_le_mul_of_nonneg_left h2 (Real.sqrt_nonneg 2)
      rw [max_eq_right h, max_eq_right (Int.ceil_mono hf), mul_div_assoc]
    · have h2 : ch / 2 ≤ cw / 2 := by linarith
      have hf : Real.sqrt 2 * (ch / 2) ≤ Real.sqrt 2 * (cw / 2) :=
        mul_le_mul_of_nonneg_left h2 (Real.sqrt_nonneg 2)
      rw [max_eq_left h, max_eq_left (Int.ceil_mono hf), mul_div_assoc]
  refine ⟨?_, hpad, fun cw ch => ?_⟩
  · intro planner inpaint grasping_policy pub now info c d bb sm h1 h2 hsmall
    have hr : read_images planner (.ok c) (.ok d) info =
        .error (.imageTooSmall planner.min_height planner.min_width c.height c.width) := by
      rw [read_images_ok_ok, if_neg (by simp [h1, h2]), if_pos hsmall]
    exact ⟨hr, by simp [plan_grasp, hr], by simp [plan_grasp_bb, hr],
      by simp [plan_grasp_segmask, hr]⟩
  · unfold min_width_ofConfig min_height_ofConfig
    rw [hpad cw ch]
    exact ⟨rfl, rfl⟩

/-- Witness for C4: a 5×5 request against minimum dimensions 96×96
(`crop_width = crop_height = 32`). -/
theorem image_too_small_fails_before_policy_and_pad_formula_witness :
    plan_grasp ⟨96, 96, 1⟩ (fun im _ => im) (fun _ => .error .noValidGrasps) true 0
      ⟨.ok ⟨5, 5, fun _ _ => 0, "camera"⟩, .ok ⟨5, 5, fun _ _ => 0, "camera"⟩,
        ⟨"camera", fun _ => 1, 5, 5⟩⟩ =
      (.error (.imageTooSmall 96 96 5 5), 0) :=
  (image_too_small_fails_before_policy_and_pad_formula.1 ⟨96, 96, 1⟩ (fun im _ => im)
    (fun _ => .error .noValidGrasps) true 0 ⟨"camera", fun _ => 1, 5, 5⟩
    ⟨5, 5, fun _ _ => 0, "camera"⟩ ⟨5, 5, fun _ _ => 0, "camera"⟩
    ⟨0, 0, 1, 1⟩ (.error "unused") rfl rfl (by decide)).2.1

/-- C8: once the scene state is assembled, the grasping policy is invoked
exactly once (invocation count 1, with no retry), and when it raises
`NoValidGraspsException` the request fails with the no-valid-grasp
service error surfaced to the caller. -/
theorem policy_invoked_exactly_once_noValidGrasp_surfaced
    (inpaint : Img → ℚ → Img) (rescale_factor : ℚ)
    (grasping_policy : RgbdState → Except PolicyFailure GraspAction)
    (pub : Bool) (now : Nat) (color depth : Img) (camera_intr : CameraIntrinsics)
    (bb : Option BoundingBox) (smOpt : Option Img) (st : RgbdState)
    (hc : composeScene inpaint rescale_factor color depth camera_intr bb smOpt = .ok st) :
    (plan_grasp_core inpaint rescale_factor grasping_policy pub now color depth
      camera_intr bb smOpt).2 = 1 ∧
    (grasping_policy st = .error .noValidGrasps →
      plan_grasp_core inpaint rescale_factor grasping_policy pub now color depth
        camera_intr bb smOpt = (.error .noValidGrasp, 1)) := by
  constructor
  · have hcount := execute_policy_count grasping_policy st pub camera_intr.frame now
    simp only [plan_grasp_core, hc]
    rcases hE : execute_policy grasping_policy st pub camera_intr.frame now with ⟨r, n⟩
    rw [hE] at hcount
    rcases r with e | ok
    · rcases e with pe | _
      · rcases pe with _ | m <;> simpa using hcount
      · simpa using hcount
    · simpa using hcount
  · intro hnv
    simp [plan_grasp_core, hc, execute_policy, hnv]

/-- Witness for C8 on a concrete 10×10 scene whose policy finds no valid
grasp. -/
theorem policy_invoked_exactly_once_noValidGrasp_surfaced_witness :
    (plan_grasp_core (fun im _ => im) 1 (fun _ => .error .noValidGrasps) true 0
      ⟨10, 10, fun _ _ => 0, "camera"⟩ ⟨10, 10, fun _ _ => 0, "camera"⟩
      ⟨"camera", 1, 1, 1, 1, 1, 10, 10⟩ none none).2 = 1 ∧
    plan_grasp_core (fun im _ => im) 1 (fun _ => .error .noValidGrasps) true 0
      ⟨10, 10, fun _ _ => 0, "camera"⟩ ⟨10, 10, fun _ _ => 0, "camera"⟩
      ⟨"camera", 1, 1, 1, 1, 1, 10, 10⟩ none none = (.error .noValidGrasp, 1) := by
  have h := policy_invoked_exactly_once_noValidGrasp_surfaced (fun im _ => im) 1
    (fun _ => .error .noValidGrasps) true 0
    ⟨10, 10, fun _ _ => 0, "camera"⟩ ⟨10, 10, fun _ _ => 0, "camera"⟩
    ⟨"camera", 1, 1, 1, 1, 1, 10, 10⟩ none none
    ⟨⟨⟨10, 10, fun _ _ => 0, "camera"⟩, ⟨10, 10, fun _ _ => 0, "camera"⟩⟩,
      ⟨"camera", 1, 1, 1, 1, 1, 10, 10⟩, ⟨10, 10, fun _ _ => 255, "camera"⟩⟩ rfl
  exact ⟨h.1, h.2 rfl⟩

end GraspPlannerNode
